import Mathlib

/-!
Shallow embedding of the `prompter` crate (files `src/keycodes.rs` and
`src/lib.rs`): a line-editing input buffer (`PromptReader`) driven by
abstract key codes.

Modelling conventions:
* The Rust `String` buffer is modelled as `List Char`; one `Char` is one
  text unit, and `String::len` is the list length (exact for the
  single-byte characters the reference behaviour assumes).
* `usize` values are modelled as `Nat`.  The one place where `usize`
  wrap-around matters is the expression `self.result.len() - 1` in the
  `KeyCode::Right` arm of `next_key`: on an empty buffer it wraps to
  `2^64 - 1` under release (wrapping) semantics, which `usizeWrapSub1`
  makes explicit.  (Under debug semantics that same subtraction panics;
  the release/wrapping semantics is the defined-behaviour one and is the
  one embedded.)
* `String::remove(idx)` panics when `idx >= len`, so the fallible parts
  of `next_key` are embedded with `Option`: `none` models a panic.
-/

/-- Abbreviation so the `KeyCode.Char` constructor can mention the
ambient character type without ambiguity. -/
abbrev TextUnit := Char

/-- `KeyCode` from `src/keycodes.rs`: the closed tag set of decoded key
presses. -/
inductive KeyCode where
  | Backspace
  | Enter
  | Left
  | Right
  | Up
  | Down
  | Home
  | End
  | PageUp
  | PageDown
  | Tab
  | BackTab
  | Delete
  | Insert
  | Char (c : TextUnit)
  | Null
  | Esc
deriving DecidableEq, Repr

/-- `impl From<char> for KeyCode` from `src/keycodes.rs`. -/
def KeyCode.fromChar (c : TextUnit) : KeyCode := KeyCode.Char c

/-- `PromptReader` from `src/lib.rs`: text buffer, cursor offset and
submission flag. -/
structure PromptReader where
  result : List Char
  cursor : Nat
  done : Bool
deriving DecidableEq, Repr

/-- Rust `n - 1` on `usize` under release (wrapping) semantics:
`0 - 1` wraps to `2^64 - 1`. -/
def usizeWrapSub1 (n : Nat) : Nat :=
  if n = 0 then 2 ^ 64 - 1 else n - 1

namespace PromptReader

/-- `PromptReader::new`: empty buffer, cursor at 0, not done. -/
def new : PromptReader :=
  { result := [], cursor := 0, done := false }

/-- `PromptReader::new_with_placeholder`: buffer `ph`, cursor at
`cursor_pos` when given, else at the end of `ph`, not done. -/
def new_with_placeholder (ph : List Char) (cursor_pos : Option Nat) :
    PromptReader :=
  { result := ph, cursor := cursor_pos.getD ph.length, done := false }

/-- `PromptReader::next_key` from `src/lib.rs`, embedded arm by arm.
`none` models a Rust panic (`String::remove` with an index at or past
the end of the buffer); every other outcome is `some` of the updated
state.  The `Right` arm's guard is the source's
`self.cursor >= self.result.len() - 1` with the `usize` subtraction
made explicit by `usizeWrapSub1`. -/
def next_key (s : PromptReader) (key_code : KeyCode) : Option PromptReader :=
  match key_code with
  | KeyCode.Char c =>
      if s.cursor ≥ s.result.length then
        some { s with result := s.result ++ [c], cursor := s.cursor + 1 }
      else
        some { s with result := s.result.insertIdx s.cursor c,
                      cursor := s.cursor + 1 }
  | KeyCode.Backspace =>
      if s.cursor ≠ 0 then
        if s.cursor - 1 < s.result.length then
          some { s with result := s.result.eraseIdx (s.cursor - 1),
                        cursor := s.cursor - 1 }
        else none
      else some s
  | KeyCode.Delete =>
      if s.cursor ≠ s.result.length then
        if s.cursor < s.result.length then
          some { s with result := s.result.eraseIdx s.cursor }
        else none
      else some s
  | KeyCode.Left =>
      if s.cursor ≠ 0 then
        some { s with cursor := s.cursor - 1 }
      else some s
  | KeyCode.Right =>
      if s.cursor ≥ usizeWrapSub1 s.result.length then
        some { s with cursor := s.cursor + 1 }
      else some s
  | KeyCode.Enter => some { s with done := true }
  | _ => some s

/-- Feed a list of key codes in order; `none` as soon as one step
panics. -/
def run (s : PromptReader) : List KeyCode → Option PromptReader
  | [] => some s
  | k :: ks =>
      match next_key s k with
      | some t => run t ks
      | none => none

/-- Reachable states: produced from `new`, or from
`new_with_placeholder` with an in-range cursor, by finitely many
non-panicking `next_key` steps. -/
inductive Reachable : PromptReader → Prop where
  | init_new : Reachable new
  | init_ph (ph : List Char) (cp : Option Nat)
      (h : (new_with_placeholder ph cp).cursor ≤ ph.length) :
      Reachable (new_with_placeholder ph cp)
  | step (s t : PromptReader) (k : KeyCode) :
      Reachable s → next_key s k = some t → Reachable t

end PromptReader

open PromptReader

/-- C1: the spec's invariant `0 <= cursor <= length(text)` fails on the
code: starting from `new`, the keys `Char('H'), Right` reach the state
with text `"H"` and cursor `2`, whose cursor exceeds the text length.
The `Right` arm's guard `cursor >= len - 1` lets the cursor move past
the end of the buffer. -/
theorem reachable_state_violates_cursor_invariant :
    Reachable { result := ['H'], cursor := 2, done := false } ∧
    ¬ ({ result := ['H'], cursor := 2, done := false } : PromptReader).cursor ≤
      ({ result := ['H'], cursor := 2, done := false } : PromptReader).result.length := by
  constructor
  · exact Reachable.step { result := ['H'], cursor := 1, done := false }
      { result := ['H'], cursor := 2, done := false } KeyCode.Right
      (Reachable.step new { result := ['H'], cursor := 1, done := false }
        (KeyCode.Char 'H') Reachable.init_new (by decide))
      (by decide)
  · decide

/-- C2: `next_key` is not total on reachable states: from `new`, the
keys `Char('H'), Char('e'), Char('j'), Right` reach text `"Hej"` with
cursor `4`, and the following `Backspace` calls `String::remove(3)` on
a length-3 buffer, which panics (modelled as `none`). -/
theorem right_then_backspace_panics :
    run new
      [KeyCode.Char 'H', KeyCode.Char 'e', KeyCode.Char 'j',
       KeyCode.Right, KeyCode.Backspace] = none := by decide

/-- C3: the `Right` guard does not match the spec's `cursor < length(text)`:
with text `"Hej"` and cursor `0`, `Right` is a no-op even though
`0 < 3`; and with cursor `3 = length`, `Right` increments to `4`
instead of being a no-op. -/
theorem right_guard_mismatch :
    next_key { result := ['H', 'e', 'j'], cursor := 0, done := false }
        KeyCode.Right
      = some { result := ['H', 'e', 'j'], cursor := 0, done := false } ∧
    next_key { result := ['H', 'e', 'j'], cursor := 3, done := false }
        KeyCode.Right
      = some { result := ['H', 'e', 'j'], cursor := 4, done := false } := by
  decide

/-- C4: `Right` is not idempotent at the end of the buffer: with text
`"H"` and cursor `1 = length`, `Right` moves the cursor to `2` instead
of leaving the state unchanged.  (The `Left`-at-start half of the claim
does hold on the code.) -/
theorem right_at_end_changes_state :
    next_key { result := ['H'], cursor := 1, done := false } KeyCode.Right
      = some { result := ['H'], cursor := 2, done := false } := by decide

/-- C5: the done flag is monotonic: whenever `done` is true and a
`next_key` step succeeds, `done` is still true afterwards; only the
`Enter` arm writes `done`, and it writes `true`. -/
theorem done_monotone (s t : PromptReader) (k : KeyCode)
    (hd : s.done = true) (h : next_key s k = some t) :
    t.done = true := by
  cases k <;> simp only [next_key] at h <;> (try split_ifs at h) <;>
    (try injection h with h) <;> (try subst h) <;> simp_all

/-- Witness for C5 at a concrete state and key. -/
theorem done_monotone_witness :
    next_key { result := [], cursor := 0, done := true } KeyCode.Left
      = some { result := [], cursor := 0, done := true } ∧
    ({ result := [], cursor := 0, done := true } : PromptReader).done = true :=
  ⟨by decide,
   done_monotone { result := [], cursor := 0, done := true }
     { result := [], cursor := 0, done := true } KeyCode.Left
     (by decide) (by decide)⟩

/-- C6: scenario 5 of the spec: from `new`, the keys
`Char('H'), Char('e'), Char('j'), Left, Right, Right, Char('O')`
produce the text `"HejO"`. -/
theorem scenario5_result :
    (run new
      [KeyCode.Char 'H', KeyCode.Char 'e', KeyCode.Char 'j', KeyCode.Left,
       KeyCode.Right, KeyCode.Right, KeyCode.Char 'O']).map PromptReader.result
      = some ['H', 'e', 'j', 'O'] := by decide

/-- C7: under the invariant `cursor <= length(text)`, `Char(c)` appends
`c` when the cursor is at the end and otherwise inserts `c` at the
cursor offset, then increments the cursor, leaving `done` unchanged;
no panic occurs. -/
theorem char_inserts_at_cursor (s : PromptReader) (c : Char)
    (h : s.cursor ≤ s.result.length) :
    next_key s (KeyCode.Char c) =
      some { result := if s.cursor = s.result.length then s.result ++ [c]
                       else s.result.insertIdx s.cursor c,
             cursor := s.cursor + 1, done := s.done } := by
  rcases Nat.lt_or_ge s.cursor s.result.length with hlt | hge
  · simp only [next_key, if_neg (Nat.not_le.mpr hlt),
      if_neg (Nat.ne_of_lt hlt)]
  · have he : s.cursor = s.result.length := Nat.le_antisymm h hge
    simp only [next_key, if_pos hge, if_pos he]

/-- Witness for C7: inserting in the middle of `"ab"`. -/
theorem char_inserts_at_cursor_witness :
    next_key { result := ['a', 'b'], cursor := 1, done := false }
      (KeyCode.Char 'X') =
      some { result := ['a', 'X', 'b'], cursor := 2, done := false } := by
  have h := char_inserts_at_cursor
    { result := ['a', 'b'], cursor := 1, done := false } 'X' (by decide)
  exact h.trans (by decide)

/-- C8: under the invariant `cursor <= length(text)`, `Backspace`
removes the unit at offset `cursor - 1` and decrements the cursor when
the cursor is nonzero, and is a no-op when the cursor is `0`; no panic
occurs. -/
theorem backspace_removes_before_cursor (s : PromptReader)
    (h : s.cursor ≤ s.result.length) :
    next_key s KeyCode.Backspace =
      some (if s.cursor = 0 then s
            else { s with result := s.result.eraseIdx (s.cursor - 1),
                          cursor := s.cursor - 1 }) := by
  by_cases h0 : s.cursor = 0
  · simp [next_key, h0]
  · have hlt : s.cursor - 1 < s.result.length := by omega
    simp [next_key, h0, hlt]

/-- Witness for C8: backspace at the end of `"ab"`. -/
theorem backspace_removes_before_cursor_witness :
    next_key { result := ['a', 'b'], cursor := 2, done := false }
      KeyCode.Backspace
      = some { result := ['a'], cursor := 1, done := false } := by
  have h := backspace_removes_before_cursor
    { result := ['a', 'b'], cursor := 2, done := false } (by decide)
  exact h.trans (by decide)

/-- C9: `Enter` sets `done` to true and leaves text and cursor
unchanged, in every state. -/
theorem enter_sets_done (s : PromptReader) :
    next_key s KeyCode.Enter =
      some { result := s.result, cursor := s.cursor, done := true } := rfl

/-- C10: whenever `cursor + 1 < length(text)` (strictly interior), the
`Right` guard `cursor >= len - 1` is false, so `Right` leaves the whole
state unchanged. -/
theorem right_interior_noop (s : PromptReader)
    (h : s.cursor + 1 < s.result.length) :
    next_key s KeyCode.Right = some s := by
  have hg : ¬ s.cursor ≥ usizeWrapSub1 s.result.length := by
    unfold usizeWrapSub1
    rw [if_neg (by omega)]
    omega
  simp [next_key, hg]

/-- Witness for C10: `Right` with text `"Hej"` and cursor `0`. -/
theorem right_interior_noop_witness :
    next_key { result := ['H', 'e', 'j'], cursor := 0, done := false }
      KeyCode.Right
      = some { result := ['H', 'e', 'j'], cursor := 0, done := false } :=
  right_interior_noop
    { result := ['H', 'e', 'j'], cursor := 0, done := false } (by decide)
